import Mathlib

/-!
Shallow embedding of the submission workflow of the "Shop in Shop Request Form"
repository. The repository has two near-identical form variants:

* Strategy A (upload-first, synchronous): `onSubmit` requires a brand logo,
  uploads it with a 25000 ms timeout racing the resumable upload, resolves a
  download URL, then writes a single Firestore document; any failure aborts and
  is surfaced via a friendly error message.
* Strategy B (write-first, background upload): `onSubmit` writes the document
  immediately with `uploadStatus` of `pending`/`none` and a null `logoUrl`,
  then (if a logo is present) starts a background upload whose completion or
  failure callback patches the document.

External calls (Firestore `addDoc`/`updateDoc`, Storage upload events,
`getDownloadURL`) are nondeterministic; their outcomes are supplied by an
explicit environment record, and each `onSubmit` is embedded as a pure
function from inputs and environment to the full observable result: the list
of documents written / store operations performed, blobs stored, cancellation,
success flag, and toast messages. Documents are keyed field lists, matching
Firestore's dynamic documents.
-/

/-- The SIS type enumeration from the zod schema. -/
inductive SISType
  | Standard
  | Vanilla
  | Customized
deriving DecidableEq, Repr

def SISType.toStr : SISType → String
  | .Standard => "Standard"
  | .Vanilla => "Vanilla"
  | .Customized => "Customized"

/-- The eight validated form fields (`FormData` in both variants). -/
structure FormData where
  email : String
  requestDate : String
  kamName : String
  brandName : String
  vendorName : String
  sisType : SISType
  retoolLink : String
  goLiveDate : String
deriving DecidableEq, Repr

/-- An in-memory file handle: the parts of a browser `File` the code reads. -/
structure FileHandle where
  name : String
  size : Nat
deriving DecidableEq, Repr

/-- A Firestore field value: the payloads only use strings and null. -/
inductive FieldValue
  | str (s : String)
  | null
deriving DecidableEq, Repr

/-- A Firestore document payload: an ordered list of named fields. -/
abbrev DocPayload := List (String × FieldValue)

def lookupField (doc : DocPayload) (key : String) : Option FieldValue :=
  (doc.find? (fun kv => kv.1 == key)).map (fun kv => kv.2)

/-- Boolean prefix test on character lists. -/
def listPrefixOf : List Char → List Char → Bool
  | [], _ => true
  | _ :: _, [] => false
  | a :: as, b :: bs => a == b && listPrefixOf as bs

/-- Does the needle occur as a contiguous sublist? -/
def subListAt (needle : List Char) : List Char → Bool
  | [] => listPrefixOf needle []
  | c :: rest => listPrefixOf needle (c :: rest) || subListAt needle rest

/-- JavaScript `hay.includes(needle)`. -/
def strContains (hay needle : String) : Bool :=
  subListAt needle.data hay.data

/-- JavaScript `s.toLowerCase()` (ASCII, as used on error messages). -/
def lowerStr (s : String) : String :=
  ⟨s.data.map Char.toLower⟩

/-- JavaScript `o?.includes(needle)` on an optional string. -/
def optContainsStr (o : Option String) (needle : String) : Bool :=
  match o with
  | some s => strContains s needle
  | none => false

/-- JavaScript `o?.toLowerCase().includes(needle)` on an optional string. -/
def optLowerContains (o : Option String) (needle : String) : Bool :=
  match o with
  | some s => strContains (lowerStr s) needle
  | none => false

/-- An error thrown by a Firebase call: optional `code` and `message`. -/
structure FirebaseError where
  code : Option String
  message : Option String
deriving DecidableEq, Repr

def unauthorizedFriendly : String :=
  "Upload blocked by Storage rules. Please allow uploads for this bucket (brand-logos/*) or sign in."

def quotaFriendly : String :=
  "Storage quota exceeded for the bucket."

def timeoutFriendly : String :=
  "Upload timed out. Please check your network or Storage CORS/rules."

def defaultFriendly : String :=
  "Failed to submit request. Please try again."

/-- The Strategy A catch-block mapping from a raised error to the friendly
message shown in the failure toast (part_000 lines 131-145). -/
def friendlyMessage (e : FirebaseError) : String :=
  let base := e.message.getD defaultFriendly
  if optContainsStr e.code "storage/unauthorized" then unauthorizedFriendly
  else if optContainsStr e.code "storage/quota-exceeded" then quotaFriendly
  else if optLowerContains e.message "timed out" then timeoutFriendly
  else base

/-- What the resumable upload task signals, and when (ms after start):
it completes at time `t`, errors at time `t`, or never signals. -/
inductive UploadEvent
  | completes (t : Nat)
  | fails (t : Nat) (e : FirebaseError)
  | silent
deriving DecidableEq, Repr

/-- Environment for a Strategy A submission: outcomes of the external calls,
`Date.now()` and the `createdAt` ISO timestamp. -/
structure EnvA where
  uploadEvent : UploadEvent
  getUrl : Except FirebaseError String
  addDocResult : Except FirebaseError String
  now : Nat
  isoNow : String

/-- The error rejected by the 25 s timeout guard: `new Error("Upload timed out")`. -/
def timeoutError : FirebaseError :=
  { code := none, message := some "Upload timed out" }

/-- Storage path used by Strategy A: `brand-logos/(Date.now())_(file name)`. -/
def pathA (now : Nat) (logo : FileHandle) : String :=
  "brand-logos/" ++ toString now ++ "_" ++ logo.name

/-- The document payload written by Strategy A (part_000 lines 108-119). -/
def payloadA (data : FormData) (logoUrl : String) (createdAt : String) : DocPayload :=
  [("email", .str data.email),
   ("requestDate", .str data.requestDate),
   ("kamName", .str data.kamName),
   ("brandName", .str data.brandName),
   ("vendorName", .str data.vendorName),
   ("sisType", .str data.sisType.toStr),
   ("retoolLink", .str data.retoolLink),
   ("goLiveDate", .str data.goLiveDate),
   ("logoUrl", .str logoUrl),
   ("createdAt", .str createdAt)]

/-- Observable outcome of a Strategy A submission. -/
structure ResultA where
  docsWritten : List DocPayload
  blobsStored : List String
  uploadStarted : Bool
  uploadCancelled : Bool
  success : Bool
  errorToast : Option String
deriving DecidableEq, Repr

/-- A failed Strategy A submission: nothing written, failure toast shown. -/
def failureA (cancelled : Bool) (blobs : List String) (e : FirebaseError) : ResultA :=
  { docsWritten := [], blobsStored := blobs, uploadStarted := true,
    uploadCancelled := cancelled, success := false,
    errorToast := some ("Submission failed: " ++ friendlyMessage e) }

/-- Strategy A `onSubmit` (part_000 lines 66-148). The logo is required; the
upload races a 25000 ms timer (the earlier signal wins; on expiry the task is
cancelled and "Upload timed out" is raised); then `getDownloadURL` and
`addDoc` run in sequence, any raise landing in the catch block. -/
def onSubmitA (brandLogo : Option FileHandle) (data : FormData) (env : EnvA) : ResultA :=
  match brandLogo with
  | none =>
    { docsWritten := [], blobsStored := [], uploadStarted := false,
      uploadCancelled := false, success := false,
      errorToast := some "Please upload a brand logo" }
  | some logo =>
    let path := pathA env.now logo
    match env.uploadEvent with
    | .completes t =>
      if t < 25000 then
        match env.getUrl with
        | .error e => failureA false [path] e
        | .ok url =>
          match env.addDocResult with
          | .error e => failureA false [path] e
          | .ok _ =>
            { docsWritten := [payloadA data url env.isoNow], blobsStored := [path],
              uploadStarted := true, uploadCancelled := false, success := true,
              errorToast := none }
      else failureA true [] timeoutError
    | .fails t e =>
      if t < 25000 then failureA false [] e
      else failureA true [] timeoutError
    | .silent => failureA true [] timeoutError

/-- The upload gave no signal before the 25000 ms timer fired. -/
def uploadTimedOut : UploadEvent → Bool
  | .completes t => decide (25000 ≤ t)
  | .fails t _ => decide (25000 ≤ t)
  | .silent => true

def exceptOk {ε α : Type} : Except ε α → Bool
  | .ok _ => true
  | .error _ => false

/-- Both Strategy A steps succeed: the upload completes inside the bound,
the URL resolves, and the Firestore write succeeds. -/
def allOkA (env : EnvA) : Bool :=
  match env.uploadEvent with
  | .completes t => decide (t < 25000) && exceptOk env.getUrl && exceptOk env.addDocResult
  | _ => false

example : strContains "upload timed out" "timed out" = true := by decide

example : friendlyMessage timeoutError = timeoutFriendly := by decide

/-- What the Strategy B background upload task signals: success or an error. -/
inductive UploadOutcome
  | ok
  | err (e : FirebaseError)
deriving DecidableEq, Repr

/-- Environment for a Strategy B submission: outcomes of `addDoc`, the
background upload, `getDownloadURL`, the two possible `updateDoc` calls,
`Date.now()` and the `createdAt` ISO timestamp. -/
structure EnvB where
  addDocResult : Except FirebaseError String
  uploadOutcome : UploadOutcome
  getUrl : Except FirebaseError String
  patchFailWrite : Except FirebaseError Unit
  patchCompleteWrite : Except FirebaseError Unit
  now : Nat
  isoNow : String

/-- An operation performed on the document store. -/
inductive StoreOp
  | create (id : String) (payload : DocPayload)
  | patch (id : String) (payload : DocPayload)
deriving DecidableEq, Repr

def StoreOp.isPatch : StoreOp → Bool
  | .patch _ _ => true
  | .create _ _ => false

/-- The base document written immediately by Strategy B
(part_001 lines 74-88). -/
def basePayloadB (data : FormData) (hasLogo : Bool) (createdAt : String) : DocPayload :=
  [("email", .str data.email),
   ("requestDate", .str data.requestDate),
   ("kamName", .str data.kamName),
   ("brandName", .str data.brandName),
   ("vendorName", .str data.vendorName),
   ("sisType", .str data.sisType.toStr),
   ("retoolLink", .str data.retoolLink),
   ("goLiveDate", .str data.goLiveDate),
   ("logoUrl", .null),
   ("uploadStatus", .str (if hasLogo then "pending" else "none")),
   ("createdAt", .str createdAt)]

/-- The patch applied when the background upload errors
(part_001 lines 104-107). -/
def failPatchB (e : FirebaseError) : DocPayload :=
  [("uploadStatus", .str "failed"),
   ("uploadError", .str (e.message.getD "Upload failed"))]

/-- The patch applied when the background upload completes
(part_001 lines 116-120). -/
def completePatchB (url fileName : String) : DocPayload :=
  [("logoUrl", .str url),
   ("logoFileName", .str fileName),
   ("uploadStatus", .str "complete")]

/-- Storage path used by Strategy B:
`brand-logos/(doc id)_(Date.now())_(file name)`. -/
def pathB (id : String) (now : Nat) (logo : FileHandle) : String :=
  "brand-logos/" ++ id ++ "_" ++ toString now ++ "_" ++ logo.name

/-- Observable outcome of a Strategy B submission, the eventual background
callbacks included: the store operations in order, blobs stored, the
submission success flag and the three toast channels. -/
structure ResultB where
  ops : List StoreOp
  blobsStored : List String
  success : Bool
  successToast : Option String
  submissionError : Option String
  secondaryNotice : Option String
deriving DecidableEq, Repr

/-- Strategy B `onSubmit` (part_001 lines 66-145) together with the eventual
effect of the background upload callbacks registered on `uploadTask.on`. The
document is created first; success is signalled regardless of the upload; the
error callback patches `uploadStatus`/`uploadError` (its own `updateDoc`
failure only logged) and toasts a non-blocking notice; the completion
callback resolves the URL and patches `logoUrl`/`logoFileName`/`uploadStatus`
(errors in either step only logged). -/
def onSubmitB (brandLogo : Option FileHandle) (data : FormData) (env : EnvB) : ResultB :=
  match env.addDocResult with
  | .error e =>
    { ops := [], blobsStored := [], success := false, successToast := none,
      submissionError := some ("Submission failed: " ++ e.message.getD "Unable to save request."),
      secondaryNotice := none }
  | .ok id =>
    match brandLogo with
    | none =>
      { ops := [.create id (basePayloadB data false env.isoNow)], blobsStored := [],
        success := true, successToast := some "Request submitted successfully!",
        submissionError := none, secondaryNotice := none }
    | some logo =>
      let createOp := StoreOp.create id (basePayloadB data true env.isoNow)
      let path := pathB id env.now logo
      let background : List StoreOp × List String × Option String :=
        match env.uploadOutcome with
        | .err e =>
          match env.patchFailWrite with
          | .ok _ =>
            ([.patch id (failPatchB e)], [],
             some "Logo upload failed, but your request was saved.")
          | .error _ =>
            ([], [], some "Logo upload failed, but your request was saved.")
        | .ok =>
          match env.getUrl with
          | .error _ => ([], [path], none)
          | .ok url =>
            match env.patchCompleteWrite with
            | .ok _ => ([.patch id (completePatchB url logo.name)], [path], none)
            | .error _ => ([], [path], none)
      { ops := createOp :: background.1, blobsStored := background.2.1,
        success := true,
        successToast := some "Request submitted! Logo will finish uploading in background.",
        submissionError := none, secondaryNotice := background.2.2 }

/-- The submission phase of the form, from the `isSubmitting`/`isSubmitted`
flags: (false, false) is idle, (true, _) submitting, (false, true) submitted. -/
inductive SubmitPhase
  | idle
  | submitting
  | submitted
deriving DecidableEq, Repr

/-- Form State Holder: phase, field values snapshot, selected file,
surfaced notice. -/
structure FormState where
  phase : SubmitPhase
  fields : List (String × String)
  file : Option FileHandle
  notice : Option String
deriving DecidableEq, Repr

/-- UI-level events driving the phase flags. `submitInvoked` is a
user-initiated submit that passed schema validation; its argument records
whether the Strategy A required-file guard trips (always false in B). -/
inductive UIEvent
  | submitInvoked (missingRequiredFile : Bool)
  | coordSuccess
  | coordFailure (msg : String)
  | displayDelayElapsed
deriving DecidableEq, Repr

/-- The transition function of the Form State Holder, read off the
`setIsSubmitting`/`setIsSubmitted`/`reset` calls and the disabled submit
button: the button is disabled while submitting and the form is replaced by
the success card while submitted, so a submit outside idle is ignored;
success moves submitting to submitted; the catch block surfaces the error and
returns to idle with fields retained; the display-delay timer resets the
fields and file and returns to idle. -/
def formStep (s : FormState) (e : UIEvent) : FormState :=
  match e with
  | .submitInvoked missing =>
    match s.phase with
    | .idle =>
      if missing then { s with notice := some "Please upload a brand logo" }
      else { s with phase := .submitting, notice := none }
    | _ => s
  | .coordSuccess =>
    match s.phase with
    | .submitting => { s with phase := .submitted }
    | _ => s
  | .coordFailure msg =>
    match s.phase with
    | .submitting => { s with phase := .idle, notice := some msg }
    | _ => s
  | .displayDelayElapsed =>
    match s.phase with
    | .submitted => { phase := .idle, fields := [], file := none, notice := s.notice }
    | _ => s

/-- In-memory selection state: the chosen logo and its rendered preview. -/
structure SelectionState where
  brandLogo : Option FileHandle
  logoPreview : String
deriving DecidableEq, Repr

/-- `handleLogoUpload` (identical in both variants, lines 50-64): a selected
file larger than 5 MiB is rejected with an error toast and the state is left
unchanged; otherwise the file replaces the selection and the reader-produced
data URL replaces the preview. Returns the new state and the error toast. -/
def handleLogoUpload (s : SelectionState) (selected : Option FileHandle)
    (preview : String) : SelectionState × Option String :=
  match selected with
  | none => (s, none)
  | some f =>
    if f.size > 5 * 1024 * 1024 then
      (s, some "File size should be less than 5MB")
    else
      ({ brandLogo := some f, logoPreview := preview }, none)

/-! Concrete fixtures, used by witnesses and counterexamples. -/

def dataEx : FormData :=
  { email := "a@b.com", requestDate := "2024-01-01", kamName := "Jane",
    brandName := "Acme", vendorName := "Vendor Co", sisType := .Standard,
    retoolLink := "", goLiveDate := "2024-02-01" }

def fileEx : FileHandle := { name := "logo.png", size := 1024 }

def envA_ok : EnvA :=
  { uploadEvent := .completes 1000, getUrl := .ok "https://cdn.example/logo.png",
    addDocResult := .ok "doc1", now := 42, isoNow := "2024-01-01T00:00:00.000Z" }

def envA_late : EnvA :=
  { uploadEvent := .silent, getUrl := .ok "https://cdn.example/logo.png",
    addDocResult := .ok "doc1", now := 42, isoNow := "2024-01-01T00:00:00.000Z" }

/-- Upload succeeds and the URL resolves, but the Firestore write fails. -/
def envA_writeFails : EnvA :=
  { uploadEvent := .completes 1000, getUrl := .ok "https://cdn.example/logo.png",
    addDocResult := .error { code := none, message := some "permission denied" },
    now := 42, isoNow := "2024-01-01T00:00:00.000Z" }

def envB_ok : EnvB :=
  { addDocResult := .ok "doc2", uploadOutcome := .ok,
    getUrl := .ok "https://cdn.example/logo.png",
    patchFailWrite := .ok (), patchCompleteWrite := .ok (),
    now := 7, isoNow := "2024-01-01T00:00:00.000Z" }

def envB_uploadFails : EnvB :=
  { addDocResult := .ok "doc2",
    uploadOutcome := .err { code := none, message := some "network error" },
    getUrl := .ok "https://cdn.example/logo.png",
    patchFailWrite := .ok (), patchCompleteWrite := .ok (),
    now := 7, isoNow := "2024-01-01T00:00:00.000Z" }

def stIdle : FormState :=
  { phase := .idle, fields := [("email", "a@b.com")], file := some fileEx,
    notice := none }

def stSubmitting : FormState := { stIdle with phase := .submitting }

def stSubmitted : FormState := { stIdle with phase := .submitted }

/-! Shared helper lemmas about Strategy A. -/

/-- When any Strategy A step fails, no success and no document. -/
theorem submitA_fail_shape (logo : FileHandle) (data : FormData) (env : EnvA)
    (h : allOkA env = false) :
    (onSubmitA (some logo) data env).success = false ∧
    (onSubmitA (some logo) data env).docsWritten = [] := by
  cases hev : env.uploadEvent with
  | completes t =>
    by_cases ht : t < 25000
    · cases hg : env.getUrl with
      | error e => simp [onSubmitA, hev, ht, hg, failureA]
      | ok url =>
        cases ha : env.addDocResult with
        | error e => simp [onSubmitA, hev, ht, hg, ha, failureA]
        | ok id =>
          exfalso
          simp [allOkA, hev, hg, ha, exceptOk, ht] at h
    · simp [onSubmitA, hev, ht, failureA]
  | fails t e =>
    by_cases ht : t < 25000 <;> simp [onSubmitA, hev, ht, failureA]
  | silent => simp [onSubmitA, hev, failureA]

/-- Strategy A signals success only when every step succeeded. -/
theorem submitA_success_ok (logo : FileHandle) (data : FormData) (env : EnvA)
    (h : (onSubmitA (some logo) data env).success = true) : allOkA env = true := by
  by_contra hq
  have := submitA_fail_shape logo data env (by
    cases hb : allOkA env
    · rfl
    · exact absurd hb hq)
  rw [h] at this
  exact Bool.true_eq_false.mp this.1

/-- C2: a Strategy A submission whose upload gives no signal within the fixed
25000 ms bound is cancelled, fails with the timeout error surfaced to the
user, and writes no document (and stores no blob). -/
theorem strategyA_timeout (logo : FileHandle) (data : FormData) (env : EnvA)
    (h : uploadTimedOut env.uploadEvent = true) :
    (onSubmitA (some logo) data env).uploadCancelled = true ∧
    (onSubmitA (some logo) data env).docsWritten = [] ∧
    (onSubmitA (some logo) data env).blobsStored = [] ∧
    (onSubmitA (some logo) data env).success = false ∧
    (onSubmitA (some logo) data env).errorToast =
      some ("Submission failed: " ++ timeoutFriendly) := by
  have hfr : friendlyMessage timeoutError = timeoutFriendly := by decide
  cases hev : env.uploadEvent with
  | completes t =>
    rw [hev] at h
    simp only [uploadTimedOut, decide_eq_true_eq] at h
    have ht : ¬ t < 25000 := Nat.not_lt.mpr h
    simp [onSubmitA, hev, ht, failureA, hfr]
  | fails t e =>
    rw [hev] at h
    simp only [uploadTimedOut, decide_eq_true_eq] at h
    have ht : ¬ t < 25000 := Nat.not_lt.mpr h
    simp [onSubmitA, hev, ht, failureA, hfr]
  | silent => simp [onSubmitA, hev, failureA, hfr]

/-- C2 witness: the timeout theorem at the concrete silent environment. -/
theorem strategyA_timeout_witness :
    (onSubmitA (some fileEx) dataEx envA_late).uploadCancelled = true ∧
    (onSubmitA (some fileEx) dataEx envA_late).docsWritten = [] ∧
    (onSubmitA (some fileEx) dataEx envA_late).blobsStored = [] ∧
    (onSubmitA (some fileEx) dataEx envA_late).success = false ∧
    (onSubmitA (some fileEx) dataEx envA_late).errorToast =
      some ("Submission failed: " ++ timeoutFriendly) :=
  strategyA_timeout fileEx dataEx envA_late rfl

/-- C3 counterexample: with the upload completed and the URL resolved but the
Firestore write failing, the operation aborts without success and without a
document, yet the uploaded blob remains in storage, so "nothing is persisted
(neither a document nor any other stored artifact)" is false. -/
theorem strategyA_abort_counterexample :
    exceptOk envA_writeFails.addDocResult = false ∧
    (onSubmitA (some fileEx) dataEx envA_writeFails).success = false ∧
    (onSubmitA (some fileEx) dataEx envA_writeFails).docsWritten = [] ∧
    (onSubmitA (some fileEx) dataEx envA_writeFails).blobsStored =
      ["brand-logos/42_logo.png"] := by
  refine ⟨rfl, rfl, rfl, ?_⟩
  decide

/-- C3 amended: if any Strategy A step fails, the whole operation aborts,
success is not signalled and no document is written; a blob uploaded before
the failure may however remain in storage. -/
theorem strategyA_abort_amended (logo : FileHandle) (data : FormData) (env : EnvA)
    (h : allOkA env = false) :
    (onSubmitA (some logo) data env).success = false ∧
    (onSubmitA (some logo) data env).docsWritten = [] :=
  submitA_fail_shape logo data env h

/-- C3 amended witness: at the concrete write-failure environment. -/
theorem strategyA_abort_amended_witness :
    (onSubmitA (some fileEx) dataEx envA_writeFails).success = false ∧
    (onSubmitA (some fileEx) dataEx envA_writeFails).docsWritten = [] :=
  strategyA_abort_amended fileEx dataEx envA_writeFails rfl

/-- C4: a successful Strategy A submission writes exactly one document whose
logoUrl equals the URL resolved for the object uploaded in the same
submission, and success is signalled only when both the upload and the write
completed. -/
theorem strategyA_success (logo : FileHandle) (data : FormData) (env : EnvA)
    (t : Nat) (url id : String)
    (hev : env.uploadEvent = .completes t) (ht : t < 25000)
    (hurl : env.getUrl = .ok url) (hadd : env.addDocResult = .ok id) :
    (onSubmitA (some logo) data env).docsWritten = [payloadA data url env.isoNow] ∧
    lookupField (payloadA data url env.isoNow) "logoUrl" = some (.str url) ∧
    (onSubmitA (some logo) data env).blobsStored = [pathA env.now logo] ∧
    (onSubmitA (some logo) data env).success = true ∧
    (∀ env2 : EnvA, (onSubmitA (some logo) data env2).success = true →
      allOkA env2 = true) := by
  refine ⟨?_, rfl, ?_, ?_, fun env2 h2 => submitA_success_ok logo data env2 h2⟩ <;>
    simp [onSubmitA, hev, ht, hurl, hadd]

/-- C4 witness: the success theorem at the concrete all-ok environment. -/
theorem strategyA_success_witness :
    (onSubmitA (some fileEx) dataEx envA_ok).docsWritten =
      [payloadA dataEx "https://cdn.example/logo.png" envA_ok.isoNow] ∧
    lookupField (payloadA dataEx "https://cdn.example/logo.png" envA_ok.isoNow) "logoUrl" =
      some (.str "https://cdn.example/logo.png") ∧
    (onSubmitA (some fileEx) dataEx envA_ok).blobsStored = [pathA envA_ok.now fileEx] ∧
    (onSubmitA (some fileEx) dataEx envA_ok).success = true ∧
    (∀ env2 : EnvA, (onSubmitA (some fileEx) dataEx env2).success = true →
      allOkA env2 = true) :=
  strategyA_success fileEx dataEx envA_ok 1000 "https://cdn.example/logo.png" "doc1"
    rfl (by decide) rfl rfl

/-- C8: a Strategy A submission without a selected file fails immediately
with the missing-file toast, starting no upload, storing no blob and writing
no document. -/
theorem strategyA_missing_file (data : FormData) (env : EnvA) :
    onSubmitA none data env =
      { docsWritten := [], blobsStored := [], uploadStarted := false,
        uploadCancelled := false, success := false,
        errorToast := some "Please upload a brand logo" } := rfl

/-- C1: a Strategy B submission with a file, assuming the backend document
operations succeed, performs exactly the creation of one document with
uploadStatus pending and null logoUrl followed by exactly one patch, which
either sets uploadStatus complete with a non-null logoUrl or uploadStatus
failed with a non-null uploadError; in particular both patches never occur. -/
theorem strategyB_upload_lifecycle (logo : FileHandle) (data : FormData)
    (env : EnvB) (id : String)
    (hadd : env.addDocResult = .ok id)
    (hfail : env.patchFailWrite = .ok ())
    (hcomp : env.patchCompleteWrite = .ok ())
    (hurl : exceptOk env.getUrl = true) :
    ∃ patchDoc : DocPayload,
      (onSubmitB (some logo) data env).ops =
        [StoreOp.create id (basePayloadB data true env.isoNow),
         StoreOp.patch id patchDoc] ∧
      lookupField (basePayloadB data true env.isoNow) "uploadStatus" =
        some (.str "pending") ∧
      lookupField (basePayloadB data true env.isoNow) "logoUrl" = some .null ∧
      ((lookupField patchDoc "uploadStatus" = some (.str "complete") ∧
        ∃ u, lookupField patchDoc "logoUrl" = some (.str u)) ∨
       (lookupField patchDoc "uploadStatus" = some (.str "failed") ∧
        ∃ m, lookupField patchDoc "uploadError" = some (.str m))) := by
  cases huo : env.uploadOutcome with
  | ok =>
    cases hg : env.getUrl with
    | error e => rw [hg] at hurl; exact absurd hurl (by simp [exceptOk])
    | ok url =>
      refine ⟨completePatchB url logo.name, ?_, rfl, rfl, Or.inl ⟨rfl, url, rfl⟩⟩
      simp [onSubmitB, hadd, huo, hg, hcomp]
  | err e =>
    refine ⟨failPatchB e, ?_, rfl, rfl,
      Or.inr ⟨rfl, e.message.getD "Upload failed", rfl⟩⟩
    simp [onSubmitB, hadd, huo, hfail]

/-- C1 witness: the lifecycle theorem at the concrete all-ok environment. -/
theorem strategyB_upload_lifecycle_witness :
    ∃ patchDoc : DocPayload,
      (onSubmitB (some fileEx) dataEx envB_ok).ops =
        [StoreOp.create "doc2" (basePayloadB dataEx true envB_ok.isoNow),
         StoreOp.patch "doc2" patchDoc] ∧
      lookupField (basePayloadB dataEx true envB_ok.isoNow) "uploadStatus" =
        some (.str "pending") ∧
      lookupField (basePayloadB dataEx true envB_ok.isoNow) "logoUrl" = some .null ∧
      ((lookupField patchDoc "uploadStatus" = some (.str "complete") ∧
        ∃ u, lookupField patchDoc "logoUrl" = some (.str u)) ∨
       (lookupField patchDoc "uploadStatus" = some (.str "failed") ∧
        ∃ m, lookupField patchDoc "uploadError" = some (.str m))) :=
  strategyB_upload_lifecycle fileEx dataEx envB_ok "doc2" rfl rfl rfl rfl

/-- C5: a Strategy B submission without a file, given that the document write
succeeds, performs exactly one store operation: the creation of a document
holding all eight form fields, uploadStatus none, a null logoUrl and the
creation timestamp; success is signalled right away and no patch ever runs. -/
theorem strategyB_no_file (data : FormData) (env : EnvB) (id : String)
    (hadd : env.addDocResult = .ok id) :
    (onSubmitB none data env).ops =
      [StoreOp.create id (basePayloadB data false env.isoNow)] ∧
    lookupField (basePayloadB data false env.isoNow) "uploadStatus" =
      some (.str "none") ∧
    lookupField (basePayloadB data false env.isoNow) "logoUrl" = some .null ∧
    lookupField (basePayloadB data false env.isoNow) "createdAt" =
      some (.str env.isoNow) ∧
    lookupField (basePayloadB data false env.isoNow) "email" =
      some (.str data.email) ∧
    lookupField (basePayloadB data false env.isoNow) "requestDate" =
      some (.str data.requestDate) ∧
    lookupField (basePayloadB data false env.isoNow) "kamName" =
      some (.str data.kamName) ∧
    lookupField (basePayloadB data false env.isoNow) "brandName" =
      some (.str data.brandName) ∧
    lookupField (basePayloadB data false env.isoNow) "vendorName" =
      some (.str data.vendorName) ∧
    lookupField (basePayloadB data false env.isoNow) "sisType" =
      some (.str data.sisType.toStr) ∧
    lookupField (basePayloadB data false env.isoNow) "retoolLink" =
      some (.str data.retoolLink) ∧
    lookupField (basePayloadB data false env.isoNow) "goLiveDate" =
      some (.str data.goLiveDate) ∧
    (onSubmitB none data env).success = true ∧
    (onSubmitB none data env).successToast = some "Request submitted successfully!" ∧
    (∀ op ∈ (onSubmitB none data env).ops, op.isPatch = false) := by
  refine ⟨?_, rfl, rfl, rfl, rfl, rfl, rfl, rfl, rfl, rfl, rfl, rfl, ?_, ?_, ?_⟩ <;>
    simp [onSubmitB, hadd, StoreOp.isPatch]

/-- C5 witness: the no-file theorem at the concrete environment. -/
theorem strategyB_no_file_witness :
    (onSubmitB none dataEx envB_ok).ops =
      [StoreOp.create "doc2" (basePayloadB dataEx false envB_ok.isoNow)] :=
  (strategyB_no_file dataEx envB_ok "doc2" rfl).1

/-- C6: the error taxonomy: an error whose code names storage/unauthorized
maps to the storage-rules message; otherwise a quota code maps to the quota
message; otherwise a message containing "timed out" maps to the timeout
message; otherwise the underlying message (or the default string) is used;
and a Strategy B upload error after a successful write is never surfaced as a
submission failure, only as the secondary non-blocking notice. -/
theorem error_taxonomy :
    (∀ e : FirebaseError, optContainsStr e.code "storage/unauthorized" = true →
      friendlyMessage e = unauthorizedFriendly) ∧
    (∀ e : FirebaseError, optContainsStr e.code "storage/unauthorized" = false →
      optContainsStr e.code "storage/quota-exceeded" = true →
      friendlyMessage e = quotaFriendly) ∧
    (∀ e : FirebaseError, optContainsStr e.code "storage/unauthorized" = false →
      optContainsStr e.code "storage/quota-exceeded" = false →
      optLowerContains e.message "timed out" = true →
      friendlyMessage e = timeoutFriendly) ∧
    (∀ e : FirebaseError, optContainsStr e.code "storage/unauthorized" = false →
      optContainsStr e.code "storage/quota-exceeded" = false →
      optLowerContains e.message "timed out" = false →
      friendlyMessage e = e.message.getD defaultFriendly) ∧
    (∀ (logo : FileHandle) (data : FormData) (env : EnvB) (id : String)
        (e : FirebaseError),
      env.addDocResult = .ok id → env.uploadOutcome = .err e →
      (onSubmitB (some logo) data env).submissionError = none ∧
      (onSubmitB (some logo) data env).success = true ∧
      (onSubmitB (some logo) data env).secondaryNotice =
        some "Logo upload failed, but your request was saved.") := by
  refine ⟨fun e h1 => ?_, fun e h1 h2 => ?_, fun e h1 h2 h3 => ?_,
    fun e h1 h2 h3 => ?_, fun logo data env id e hadd huo => ?_⟩
  · simp [friendlyMessage, h1]
  · simp [friendlyMessage, h1, h2]
  · simp [friendlyMessage, h1, h2, h3]
  · simp [friendlyMessage, h1, h2, h3]
  · cases hp : env.patchFailWrite <;>
      simp [onSubmitB, hadd, huo, hp]

/-- C6 witness: each branch of the taxonomy at a concrete error, and the
Strategy B non-blocking notice at the concrete upload-failure environment. -/
theorem error_taxonomy_witness :
    friendlyMessage { code := some "storage/unauthorized", message := none } =
      unauthorizedFriendly ∧
    friendlyMessage { code := some "storage/quota-exceeded", message := none } =
      quotaFriendly ∧
    friendlyMessage { code := none, message := some "Upload timed out" } =
      timeoutFriendly ∧
    friendlyMessage { code := none, message := some "boom" } = "boom" ∧
    ((onSubmitB (some fileEx) dataEx envB_uploadFails).submissionError = none ∧
     (onSubmitB (some fileEx) dataEx envB_uploadFails).success = true ∧
     (onSubmitB (some fileEx) dataEx envB_uploadFails).secondaryNotice =
       some "Logo upload failed, but your request was saved.") :=
  ⟨error_taxonomy.1 _ (by decide),
   error_taxonomy.2.1 _ (by decide) (by decide),
   error_taxonomy.2.2.1 _ (by decide) (by decide) (by decide),
   error_taxonomy.2.2.2.1 _ (by decide) (by decide) (by decide),
   error_taxonomy.2.2.2.2 fileEx dataEx envB_uploadFails "doc2"
     { code := none, message := some "network error" } rfl rfl⟩

/-- C7: the submission phase transitions are exactly: idle to submitting on a
user-initiated submit (file guard passing), submits outside idle ignored,
submitting to submitted on Coordinator success, submitting to idle on
Coordinator failure with the error surfaced and fields retained, submitted to
idle on the display delay clearing fields and file; and no event changes the
phase otherwise. -/
theorem form_phase_transitions :
    (∀ s : FormState, s.phase = .idle →
      (formStep s (.submitInvoked false)).phase = .submitting ∧
      (formStep s (.submitInvoked false)).fields = s.fields ∧
      (formStep s (.submitInvoked false)).file = s.file) ∧
    (∀ (s : FormState) (m : Bool), s.phase ≠ .idle →
      formStep s (.submitInvoked m) = s) ∧
    (∀ s : FormState, s.phase = .submitting →
      formStep s .coordSuccess = { s with phase := .submitted }) ∧
    (∀ (s : FormState) (msg : String), s.phase = .submitting →
      formStep s (.coordFailure msg) =
        { s with phase := .idle, notice := some msg }) ∧
    (∀ s : FormState, s.phase = .submitted →
      formStep s .displayDelayElapsed =
        { phase := .idle, fields := [], file := none, notice := s.notice }) ∧
    (∀ (s : FormState) (e : UIEvent), (formStep s e).phase = s.phase ∨
      (s.phase = .idle ∧ (formStep s e).phase = .submitting ∧
        ∃ m, e = .submitInvoked m) ∨
      (s.phase = .submitting ∧ (formStep s e).phase = .submitted ∧
        e = .coordSuccess) ∨
      (s.phase = .submitting ∧ (formStep s e).phase = .idle ∧
        ∃ msg, e = .coordFailure msg) ∨
      (s.phase = .submitted ∧ (formStep s e).phase = .idle ∧
        e = .displayDelayElapsed)) := by
  refine ⟨fun s h => ?_, fun s m h => ?_, fun s h => ?_, fun s msg h => ?_,
    fun s h => ?_, fun s e => ?_⟩
  · simp [formStep, h]
  · cases hp : s.phase <;> simp [formStep, hp] <;> exact absurd hp h
  · simp [formStep, h]
  · simp [formStep, h]
  · simp [formStep, h]
  · cases e with
    | submitInvoked m =>
      cases hp : s.phase with
      | idle =>
        cases m with
        | false => exact Or.inr (Or.inl ⟨rfl, by simp [formStep, hp], false, rfl⟩)
        | true => exact Or.inl (by simp [formStep, hp])
      | submitting => exact Or.inl (by simp [formStep, hp])
      | submitted => exact Or.inl (by simp [formStep, hp])
    | coordSuccess =>
      cases hp : s.phase with
      | idle => exact Or.inl (by simp [formStep, hp])
      | submitting =>
        exact Or.inr (Or.inr (Or.inl ⟨rfl, by simp [formStep, hp], rfl⟩))
      | submitted => exact Or.inl (by simp [formStep, hp])
    | coordFailure msg =>
      cases hp : s.phase with
      | idle => exact Or.inl (by simp [formStep, hp])
      | submitting =>
        exact Or.inr (Or.inr (Or.inr (Or.inl ⟨rfl, by simp [formStep, hp], msg, rfl⟩)))
      | submitted => exact Or.inl (by simp [formStep, hp])
    | displayDelayElapsed =>
      cases hp : s.phase with
      | idle => exact Or.inl (by simp [formStep, hp])
      | submitting => exact Or.inl (by simp [formStep, hp])
      | submitted =>
        exact Or.inr (Or.inr (Or.inr (Or.inr ⟨rfl, by simp [formStep, hp], rfl⟩)))

/-- C7 witness: each claimed transition at a concrete state. -/
theorem form_phase_transitions_witness :
    (formStep stIdle (.submitInvoked false)).phase = .submitting ∧
    formStep stSubmitting (.submitInvoked true) = stSubmitting ∧
    formStep stSubmitting .coordSuccess = { stSubmitting with phase := .submitted } ∧
    formStep stSubmitting (.coordFailure "boom") =
      { stSubmitting with phase := .idle, notice := some "boom" } ∧
    formStep stSubmitted .displayDelayElapsed =
      { phase := .idle, fields := [], file := none, notice := stSubmitted.notice } :=
  ⟨(form_phase_transitions.1 stIdle rfl).1,
   form_phase_transitions.2.1 stSubmitting true (by decide),
   form_phase_transitions.2.2.1 stSubmitting rfl,
   form_phase_transitions.2.2.2.1 stSubmitting "boom" rfl,
   form_phase_transitions.2.2.2.2.1 stSubmitted rfl⟩

/-- C9: a successful Strategy A document carries exactly the eight form
fields plus logoUrl and createdAt, and in particular no uploadStatus,
uploadError or logoFileName field; the uploadStatus field lives only in the
Strategy B base document. -/
theorem strategyA_payload_keys (data : FormData) (url iso : String) (hasLogo : Bool) :
    (payloadA data url iso).map Prod.fst =
      ["email", "requestDate", "kamName", "brandName", "vendorName", "sisType",
       "retoolLink", "goLiveDate", "logoUrl", "createdAt"] ∧
    lookupField (payloadA data url iso) "uploadStatus" = none ∧
    lookupField (payloadA data url iso) "uploadError" = none ∧
    lookupField (payloadA data url iso) "logoFileName" = none ∧
    lookupField (basePayloadB data hasLogo iso) "uploadStatus" =
      some (.str (if hasLogo then "pending" else "none")) :=
  ⟨rfl, rfl, rfl, rfl, rfl⟩

/-- C10: a file selection strictly larger than 5 MiB is rejected with the
size-error toast and the selection state is unchanged, while a selection of
at most 5 MiB replaces the current file and preview with no error. -/
theorem logo_selection_size_gate (s : SelectionState) (f : FileHandle)
    (preview : String) :
    (5 * 1024 * 1024 < f.size →
      handleLogoUpload s (some f) preview =
        (s, some "File size should be less than 5MB")) ∧
    (f.size ≤ 5 * 1024 * 1024 →
      handleLogoUpload s (some f) preview =
        ({ brandLogo := some f, logoPreview := preview }, none)) := by
  constructor
  · intro h
    simp [handleLogoUpload, h]
  · intro h
    simp [handleLogoUpload, Nat.not_lt.mpr h]

/-- C10 witness: a 6 MiB file is rejected with the state unchanged, and a
file of exactly 5 MiB is accepted and replaces the selection. -/
theorem logo_selection_size_gate_witness :
    handleLogoUpload { brandLogo := some fileEx, logoPreview := "old" }
        (some { name := "big.png", size := 6 * 1024 * 1024 }) "new" =
      ({ brandLogo := some fileEx, logoPreview := "old" },
       some "File size should be less than 5MB") ∧
    handleLogoUpload { brandLogo := some fileEx, logoPreview := "old" }
        (some { name := "edge.png", size := 5 * 1024 * 1024 }) "new" =
      ({ brandLogo := some { name := "edge.png", size := 5 * 1024 * 1024 },
         logoPreview := "new" }, none) :=
  ⟨(logo_selection_size_gate { brandLogo := some fileEx, logoPreview := "old" }
      { name := "big.png", size := 6 * 1024 * 1024 } "new").1 (by decide),
   (logo_selection_size_gate { brandLogo := some fileEx, logoPreview := "old" }
      { name := "edge.png", size := 5 * 1024 * 1024 } "new").2 (by decide)⟩
